import Mathlib

/-!
Verification development for the StreamingService control plane.

The TypeScript sources are embedded shallowly:
  * `src/services/channel-provisioner.ts` → `provisionFromUpload`, `parsePreset`,
    `buildCacheKey`, `buildManifestPath`, pool/preset selectors;
  * `src/services/upload-event-worker` (unnamed part_000) → `handleMessage`;
  * `src/services/reconciliation-service.ts` → `reconcileFailed`;
  * `src/services/admin-service.ts` → `retire`.

External collaborators (metadata repository, media-engine client, notification
publisher, alerting sink, wall clock, WHATWG URL resolution, base64/JSON
decoding) are modelled as oracles passed in explicitly; each operation returns
a trace of the observable calls it makes, so that frame conditions (which
upserts and engine calls happen) are provable.  Machine integers are `Nat`
with explicit `% 2 ^ 32` where the SHA-1 code overflows.
-/

/-- `node:crypto` SHA-1: rotate a 32-bit word left by `n`. -/
def rotl32 (n x : Nat) : Nat :=
  (((x <<< n) % 4294967296) ||| (x >>> (32 - n))) % 4294967296

/-- UTF-8 encoding of one code point (what `Buffer`/`Hash.update` do to a JS
string with the default encoding). -/
def utf8Bytes (c : Char) : List Nat :=
  let n := c.toNat
  if n < 128 then [n]
  else if n < 2048 then
    [192 ||| (n >>> 6), 128 ||| (n &&& 63)]
  else if n < 65536 then
    [224 ||| (n >>> 12), 128 ||| ((n >>> 6) &&& 63), 128 ||| (n &&& 63)]
  else
    [240 ||| (n >>> 18), 128 ||| ((n >>> 12) &&& 63),
     128 ||| ((n >>> 6) &&& 63), 128 ||| (n &&& 63)]

/-- A string as its UTF-8 byte sequence. -/
def strBytes (s : String) : List Nat :=
  s.data.flatMap utf8Bytes

/-- Big-endian bytes of a 64-bit length field. -/
def be64 (n : Nat) : List Nat :=
  [(n >>> 56) % 256, (n >>> 48) % 256, (n >>> 40) % 256, (n >>> 32) % 256,
   (n >>> 24) % 256, (n >>> 16) % 256, (n >>> 8) % 256, n % 256]

/-- Big-endian bytes of a 32-bit word. -/
def be32 (n : Nat) : List Nat :=
  [(n >>> 24) % 256, (n >>> 16) % 256, (n >>> 8) % 256, n % 256]

/-- SHA-1 padding: append 0x80, zeros to 56 mod 64, then the 64-bit bit length. -/
def sha1Pad (msg : List Nat) : List Nat :=
  let len := msg.length
  let zeros := (55 + 64 - len % 64) % 64
  msg ++ [128] ++ List.replicate zeros 0 ++ be64 ((len * 8) % 18446744073709551616)

/-- Split a padded message into 64-byte blocks (`fuel` bounds the recursion;
it is instantiated with the list length, which is a multiple of 64). -/
def chunks64 : Nat → List Nat → List (List Nat)
  | 0, _ => []
  | _, [] => []
  | fuel + 1, bs => bs.take 64 :: chunks64 fuel (bs.drop 64)

/-- The 16 initial 32-bit words of a block, big-endian. -/
def blockWords : Nat → List Nat → List Nat
  | 0, _ => []
  | fuel + 1, b0 :: b1 :: b2 :: b3 :: rest =>
      ((b0 <<< 24) + (b1 <<< 16) + (b2 <<< 8) + b3) :: blockWords fuel rest
  | _ + 1, _ => []

/-- Extend the 16-word schedule to 80 words:
`w[i] = rotl1 (w[i-3] xor w[i-8] xor w[i-14] xor w[i-16])`. -/
def sha1Extend (w : Array Nat) : Array Nat :=
  (List.range 64).foldl
    (fun w i =>
      w.push (rotl32 1 ((w.get! (i + 13)) ^^^ (w.get! (i + 8)) ^^^
                        (w.get! (i + 2)) ^^^ (w.get! i))))
    w

/-- One SHA-1 round, state `(a, b, c, d, e)`. -/
def sha1Round (w : Array Nat) (s : Nat × Nat × Nat × Nat × Nat) (i : Nat) :
    Nat × Nat × Nat × Nat × Nat :=
  let (a, b, c, d, e) := s
  let f :=
    if i < 20 then (b &&& c) ||| ((b ^^^ 4294967295) &&& d)
    else if i < 40 then b ^^^ c ^^^ d
    else if i < 60 then (b &&& c) ||| (b &&& d) ||| (c &&& d)
    else b ^^^ c ^^^ d
  let k :=
    if i < 20 then 1518500249
    else if i < 40 then 1859775393
    else if i < 60 then 2400959708
    else 3395469782
  let temp := (rotl32 5 a + f + e + k + w.get! i) % 4294967296
  (temp, a, rotl32 30 b, c, d)

/-- Process one 64-byte block into the running hash state. -/
def sha1Block (h : Nat × Nat × Nat × Nat × Nat) (block : List Nat) :
    Nat × Nat × Nat × Nat × Nat :=
  let w := sha1Extend (blockWords 16 block).toArray
  let (h0, h1, h2, h3, h4) := h
  let (a, b, c, d, e) := (List.range 80).foldl (sha1Round w) h
  ((h0 + a) % 4294967296, (h1 + b) % 4294967296, (h2 + c) % 4294967296,
   (h3 + d) % 4294967296, (h4 + e) % 4294967296)

/-- SHA-1 digest of a byte sequence, as the five 32-bit hash words. -/
def sha1Digest (msg : List Nat) : Nat × Nat × Nat × Nat × Nat :=
  let padded := sha1Pad msg
  (chunks64 padded.length padded).foldl sha1Block
    (1732584193, 4023233417, 2562383102, 271733878, 3285377520)

/-- The five hash words as 20 big-endian bytes. -/
def tupleBytes (h : Nat × Nat × Nat × Nat × Nat) : List Nat :=
  be32 h.1 ++ be32 h.2.1 ++ be32 h.2.2.1 ++ be32 h.2.2.2.1 ++ be32 h.2.2.2.2

/-- SHA-1 digest of a byte sequence, as 20 bytes. -/
def sha1Bytes (msg : List Nat) : List Nat :=
  tupleBytes (sha1Digest msg)

/-- Lowercase hexadecimal digit for `n % 16`. -/
def hexDigit (n : Nat) : Char :=
  if n < 10 then Char.ofNat (48 + n) else Char.ofNat (87 + n)

/-- Two lowercase hex characters for one byte. -/
def byteHex (b : Nat) : List Char :=
  [hexDigit ((b >>> 4) % 16), hexDigit (b % 16)]

/-- `createHash("sha1").update(s).digest("hex")`: lowercase-hex SHA-1 of the
UTF-8 bytes of `s`. -/
def sha1Hex (s : String) : String :=
  String.mk ((sha1Bytes (strBytes s)).flatMap byteHex)

/-! ## Data model (`src/types/upload.ts`, `src/types/channel`) -/

deriving instance DecidableEq for Except

/-- `ChannelClassification = "reel" | "series"`. -/
inductive ChannelClassification where
  | reel
  | series
deriving DecidableEq, Repr

/-- Optional DRM block on events and records. -/
structure DrmInfo where
  keyId : String
  licenseServer : String
deriving DecidableEq, Repr

/-- Optional availability window. -/
structure AvailabilityWindow where
  startsAt : String
  endsAt : String
deriving DecidableEq, Repr

/-- Optional geo restrictions. -/
structure GeoRestrictions where
  allow : Option (List String)
  deny : Option (List String)
deriving DecidableEq, Repr

/-- The `data` payload of an `UploadCompletedEvent`. -/
structure EventData where
  contentId : String
  tenantId : String
  contentType : ChannelClassification
  sourceGcsUri : String
  checksum : String
  durationSeconds : Nat
  ingestRegion : String
  drm : Option DrmInfo
  availabilityWindow : Option AvailabilityWindow
  geoRestrictions : Option GeoRestrictions
deriving DecidableEq, Repr

/-- `acknowledgement` hints on an event. -/
structure AckHints where
  deadlineSeconds : Nat
  required : Bool
deriving DecidableEq, Repr

/-- `UploadCompletedEvent` as consumed by the provisioner (a well-shaped
event; the worker additionally handles raw JSON that may lack `data`,
see `RawUploadEvent`). -/
structure UploadCompletedEvent where
  eventId : String
  eventType : String
  version : String
  occurredAt : String
  data : EventData
  acknowledgement : Option AckHints
deriving DecidableEq, Repr

/-- `status` field of a `ChannelMetadata` record. -/
inductive ChannelStatus where
  | provisioning
  | ready
  | failed
  | retired
deriving DecidableEq, Repr

/-- The persistent `ChannelMetadata` record, keyed by `contentId`. -/
structure ChannelMetadata where
  contentId : String
  channelId : String
  classification : ChannelClassification
  manifestPath : String
  playbackUrl : String
  originEndpoint : String
  cacheKey : String
  checksum : String
  status : ChannelStatus
  retries : Nat
  sourceAssetUri : String
  lastProvisionedAt : String
  drm : Option DrmInfo
  ingestRegion : Option String
  availabilityWindow : Option AvailabilityWindow
  geoRestrictions : Option GeoRestrictions
deriving DecidableEq, Repr

/-- `AbrVariant`: one rung of the ABR ladder. -/
structure AbrVariant where
  name : String
  resolution : String
  bitrateKbps : Int
deriving DecidableEq, Repr

/-- The opaque `metadata` string map stamped into a provisioning request
(the object literal built in `provisionFromUpload`). -/
structure RequestMetadata where
  tenantId : String
  checksum : String
  ingestRegion : String
  durationSeconds : String
  signingKeyId : String
  dryRun : String
deriving DecidableEq, Repr

/-- `ChannelProvisioningRequest` sent to the media engine. -/
structure ChannelProvisioningRequest where
  contentId : String
  classification : ChannelClassification
  sourceUri : String
  ingestPool : String
  egressPool : String
  abrLadder : List AbrVariant
  outputBucket : String
  manifestPath : String
  cacheKey : String
  drm : Option DrmInfo
  metadata : RequestMetadata
  availabilityWindow : Option AvailabilityWindow
  geoRestrictions : Option GeoRestrictions
deriving DecidableEq, Repr

/-- `ChannelProvisioningResult` returned by the engine. -/
structure ChannelProvisioningResult where
  channelId : String
  manifestPath : Option String
  originEndpoint : String
  playbackBaseUrl : Option String
  profileHash : String
deriving DecidableEq, Repr

/-! ## Channel Provisioner (`src/services/channel-provisioner.ts`) -/

/-- JS whitespace for `String.prototype.trim` (space, tab, CR, LF — the
characters occurring here; JS also trims other Unicode space characters,
which cannot appear in the ASCII preset/config strings concerned). -/
def isJsSpace (c : Char) : Bool :=
  c = ' ' ∨ c = '\t' ∨ c = '\n' ∨ c = '\r'

/-- Strip leading and trailing whitespace from a character list. -/
def trimChars (cs : List Char) : List Char :=
  ((cs.dropWhile isJsSpace).reverse.dropWhile isJsSpace).reverse

/-- JS `s.trim()`. -/
def jsTrim (s : String) : String :=
  String.mk (trimChars s.data)

/-- JS `s.split(sep)` for a one-character separator: every occurrence splits,
the empty string yields `[""]`, adjacent separators yield empty fields. -/
def splitChars (sep : Char) : List Char → List (List Char)
  | [] => [[]]
  | c :: rest =>
    if c = sep then [] :: splitChars sep rest
    else
      match splitChars sep rest with
      | h :: t => (c :: h) :: t
      | [] => [[c]]

/-- JS `s.split(sep)` on strings. -/
def jsSplit (sep : Char) (s : String) : List String :=
  (splitChars sep s.data).map String.mk

/-- JS `Number.parseInt(s, 10)` on an already-trimmed string: optional sign,
then a maximal run of decimal digits; `none` models `NaN` (no leading digit
after the optional sign); trailing non-digit characters are ignored. -/
def parseIntBase10 (s : String) : Option Int :=
  let signAndRest : Int × List Char :=
    match s.data with
    | '-' :: cs => (-1, cs)
    | '+' :: cs => (1, cs)
    | cs => (1, cs)
  let digits := signAndRest.2.takeWhile Char.isDigit
  if digits.isEmpty then none
  else some (signAndRest.1 * (digits.foldl (fun acc c => acc * 10 + (c.toNat - 48)) 0 : Nat))

/-- The `i`-th trimmed `|`-token of a preset entry
(`entry.split("|").map(trim)` destructured), the empty string when missing
(JS destructuring yields `undefined`, which is falsy exactly like `""`). -/
def presetTok (entry : String) (i : Nat) : String :=
  ((((jsSplit '|' entry).map jsTrim).get? i).getD "")

/-- One entry of a preset string: split on `|`, trim each token, fail when
any of the three destructured tokens is missing/empty (JS falsiness) or when
`Number.parseInt(bitrate, 10)` is `NaN`. -/
def parsePresetEntry (entry : String) : Except String AbrVariant :=
  if presetTok entry 0 = "" ∨ presetTok entry 1 = "" ∨ presetTok entry 2 = "" then
    Except.error ("Invalid ABR preset entry: " ++ entry)
  else
    match parseIntBase10 (presetTok entry 2) with
    | none => Except.error ("Invalid bitrate in ABR preset entry: " ++ entry)
    | some bitrateKbps =>
      Except.ok
        { name := presetTok entry 0
          resolution := presetTok entry 1
          bitrateKbps }

/-- `parsePreset`: split on `,`, trim entries, drop empty entries
(`filter(Boolean)`), then parse each entry; the first entry error aborts
(the source `throw`s out of the `map`). -/
def parsePreset (preset : String) : Except String (List AbrVariant) :=
  (((jsSplit ',' preset).map jsTrim).filter (fun e => ¬ (e = ""))).mapM parsePresetEntry

/-- `buildManifestPath`. -/
def buildManifestPath (contentId : String) : String :=
  "manifests/" ++ contentId ++ "/master.m3u8"

/-- `buildCacheKey`: lowercase-hex SHA-1 of `contentId + ":" + checksum`. -/
def buildCacheKey (contentId checksum : String) : String :=
  sha1Hex (contentId ++ ":" ++ checksum)

/-- Provisioner configuration: the class fields set by the constructor.
Presets are already parsed (the constructor parses them at startup);
`resolveUrl` stands for the platform WHATWG `new URL(path, base).toString()`
used by `buildPlaybackUrl`, which is external library code. -/
structure ProvisionerCfg where
  manifestBucket : String
  reelPreset : List AbrVariant
  seriesPreset : List AbrVariant
  reelsIngestPool : String
  seriesIngestPool : String
  reelsEgressPool : String
  seriesEgressPool : String
  maxProvisionRetries : Nat
  cdnBaseUrl : String
  signingKeyId : String
  dryRun : Bool
  resolveUrl : String → String → String

/-- `selectPreset`. -/
def selectPreset (cfg : ProvisionerCfg) : ChannelClassification → List AbrVariant
  | .reel => cfg.reelPreset
  | .series => cfg.seriesPreset

/-- `selectIngestPool`. -/
def selectIngestPool (cfg : ProvisionerCfg) : ChannelClassification → String
  | .reel => cfg.reelsIngestPool
  | .series => cfg.seriesIngestPool

/-- `selectEgressPool`. -/
def selectEgressPool (cfg : ProvisionerCfg) : ChannelClassification → String
  | .reel => cfg.reelsEgressPool
  | .series => cfg.seriesEgressPool

/-- `buildPlaybackUrl`. -/
def buildPlaybackUrl (cfg : ProvisionerCfg) (manifestPath : String) : String :=
  cfg.resolveUrl manifestPath cfg.cdnBaseUrl

/-- Observable side effects of a provisioner / admin call, in order. -/
inductive TraceEvent where
  | upsert (record : ChannelMetadata)
  | engineCall (request : ChannelProvisioningRequest)
  | deleteChannel (channelId : String)
  | purge (manifestPath : String)
deriving DecidableEq, Repr

/-- Outcome of a provisioner call: the effect trace and the returned record
(`Except.error` models the call throwing). -/
structure ProvisionOutcome where
  trace : List TraceEvent
  result : Except String ChannelMetadata
deriving DecidableEq, Repr

/-- Modelled from the spec: `withExponentialBackoff` lives in
`src/utils/retry.ts`, which is not under `src/`; per §4.2 ("Retry envelope")
it retries only the engine call, up to `retries` additional attempts after
the first, returning the first success or re-throwing the last error (delays
and jitter do not affect the returned value).  `op i` is the oracle for the
outcome of the `i`-th engine attempt; the second component counts the
attempts actually made. -/
def runBackoff (retries : Nat) (op : Nat → Except String ChannelProvisioningResult) :
    Except String ChannelProvisioningResult × Nat :=
  go retries 0
where
  /-- Try attempt `i`; on failure recurse while fuel remains. -/
  go : Nat → Nat → Except String ChannelProvisioningResult × Nat
    | fuel, i =>
      match op i, fuel with
      | Except.ok r, _ => (Except.ok r, i + 1)
      | Except.error e, 0 => (Except.error e, i + 1)
      | Except.error _, fuel + 1 => go fuel (i + 1)

/-- The `ChannelProvisioningRequest` object literal built in
`provisionFromUpload` (its `classification` local is `event.data.contentType`). -/
def mkRequest (cfg : ProvisionerCfg) (event : UploadCompletedEvent) :
    ChannelProvisioningRequest :=
  { contentId := event.data.contentId
    classification := event.data.contentType
    sourceUri := event.data.sourceGcsUri
    ingestPool := selectIngestPool cfg event.data.contentType
    egressPool := selectEgressPool cfg event.data.contentType
    abrLadder := selectPreset cfg event.data.contentType
    outputBucket := cfg.manifestBucket
    manifestPath := buildManifestPath event.data.contentId
    cacheKey := buildCacheKey event.data.contentId event.data.checksum
    drm := event.data.drm
    metadata :=
      { tenantId := event.data.tenantId
        checksum := event.data.checksum
        ingestRegion := event.data.ingestRegion
        durationSeconds := toString event.data.durationSeconds
        signingKeyId := cfg.signingKeyId
        dryRun := if cfg.dryRun then "true" else "false" }
    availabilityWindow := event.data.availabilityWindow
    geoRestrictions := event.data.geoRestrictions }

/-- The `baseRecord` (status `provisioning` pre-record) object literal built
in `provisionFromUpload`; `clock0` is the `new Date().toISOString()` read
there. -/
def mkBaseRecord (cfg : ProvisionerCfg) (event : UploadCompletedEvent)
    (existing : Option ChannelMetadata) (clock0 : String) : ChannelMetadata :=
  { contentId := event.data.contentId
    channelId := (existing.map ChannelMetadata.channelId).getD "pending"
    classification := event.data.contentType
    manifestPath := buildManifestPath event.data.contentId
    playbackUrl := buildPlaybackUrl cfg (buildManifestPath event.data.contentId)
    originEndpoint := (existing.map ChannelMetadata.originEndpoint).getD "pending"
    cacheKey := buildCacheKey event.data.contentId event.data.checksum
    checksum := event.data.checksum
    status := ChannelStatus.provisioning
    retries := match existing with
      | some ex => ex.retries + 1
      | none => 0
    sourceAssetUri := event.data.sourceGcsUri
    lastProvisionedAt := clock0
    drm := event.data.drm
    ingestRegion := some event.data.ingestRegion
    availabilityWindow := event.data.availabilityWindow
    geoRestrictions := event.data.geoRestrictions }

/-- The record upserted in the `catch` branch after the retry envelope is
exhausted: the base record with `status = failed`, `retries + 1` and a fresh
timestamp; every other field is unchanged. -/
def mkFailedRecord (base : ChannelMetadata) (clock1 : String) : ChannelMetadata :=
  { base with
      status := ChannelStatus.failed
      retries := base.retries + 1
      lastProvisionedAt := clock1 }

/-- The `finalRecord` upserted on engine success. -/
def mkFinalRecord (base : ChannelMetadata) (response : ChannelProvisioningResult)
    (clock1 : String) : ChannelMetadata :=
  { base with
      channelId := response.channelId
      manifestPath := response.manifestPath.getD base.manifestPath
      playbackUrl := response.playbackBaseUrl.getD base.playbackUrl
      originEndpoint := response.originEndpoint
      status := ChannelStatus.ready
      lastProvisionedAt := clock1 }

/-- The idempotency-gate condition of `provisionFromUpload`:
`existing && existing.checksum === event.data.checksum && existing.status === "ready"`. -/
def gateFires (existing : Option ChannelMetadata) (event : UploadCompletedEvent) : Bool :=
  match existing with
  | some ex => decide (ex.checksum = event.data.checksum ∧ ex.status = ChannelStatus.ready)
  | none => false

/-- The body of `provisionFromUpload` after the idempotency gate: upsert the
pre-record, run the engine call under the retry envelope, then upsert the
failed record and re-throw, or upsert the final record and return it. -/
def provisionCore (cfg : ProvisionerCfg) (event : UploadCompletedEvent)
    (existing : Option ChannelMetadata)
    (engine : Nat → Except String ChannelProvisioningResult)
    (clock : Nat → String) : ProvisionOutcome :=
  let request := mkRequest cfg event
  let baseRecord := mkBaseRecord cfg event existing (clock 0)
  match runBackoff cfg.maxProvisionRetries engine with
  | (Except.error e, attempts) =>
    { trace := TraceEvent.upsert baseRecord ::
        (List.replicate attempts (TraceEvent.engineCall request) ++
         [TraceEvent.upsert (mkFailedRecord baseRecord (clock 1))])
      result := Except.error e }
  | (Except.ok response, attempts) =>
    { trace := TraceEvent.upsert baseRecord ::
        (List.replicate attempts (TraceEvent.engineCall request) ++
         [TraceEvent.upsert (mkFinalRecord baseRecord response (clock 1))])
      result := Except.ok (mkFinalRecord baseRecord response (clock 1)) }

/-- `provisionFromUpload`.  Oracles: `existing` is the repository's answer to
`findByContentId(event.data.contentId)`; `engine i` the outcome of the `i`-th
`createChannel` attempt inside the retry envelope; `clock n` the `n`-th
`new Date().toISOString()` reading (0 = the pre-record write, 1 = the
terminal write).  Repository upserts are durable and non-failing here, as in
§4.3; what is written is recorded in the trace. -/
def provisionFromUpload (cfg : ProvisionerCfg) (event : UploadCompletedEvent)
    (existing : Option ChannelMetadata)
    (engine : Nat → Except String ChannelProvisioningResult)
    (clock : Nat → String) : ProvisionOutcome :=
  match existing with
  | some ex =>
    if ex.checksum = event.data.checksum ∧ ex.status = ChannelStatus.ready then
      { trace := [], result := Except.ok ex }
    else
      provisionCore cfg event existing engine clock
  | none => provisionCore cfg event existing engine clock

/-- Trace projection: the record of an upsert event. -/
def upsertEv : TraceEvent → Option ChannelMetadata
  | TraceEvent.upsert r => some r
  | _ => none

/-- Trace projection: the request of an engine call event. -/
def engineEv : TraceEvent → Option ChannelProvisioningRequest
  | TraceEvent.engineCall r => some r
  | _ => none

/-- The records upserted along a trace, in order. -/
def upsertsOf (trace : List TraceEvent) : List ChannelMetadata :=
  trace.filterMap upsertEv

/-- The provisioning requests passed to `createChannel` along a trace. -/
def engineRequestsOf (trace : List TraceEvent) : List ChannelProvisioningRequest :=
  trace.filterMap engineEv

/-! ## Admin façade (`src/services/admin-service.ts`, `retire`) -/

/-- `StreamAdminService.retire`.  `record` is the repository's answer to
`findByContentId(contentId)` (`requireChannel` throws "Stream not found" on
`null`); `now` the timestamp written.  The trace records the engine delete,
the upsert and the CDN purge, in source order. -/
def retire (record : Option ChannelMetadata) (now : String) :
    List TraceEvent × Except String Unit :=
  match record with
  | none => ([], Except.error "Stream not found")
  | some r =>
    ([TraceEvent.deleteChannel r.channelId,
      TraceEvent.upsert { r with status := ChannelStatus.retired, lastProvisionedAt := now },
      TraceEvent.purge r.manifestPath],
     Except.ok ())

/-! ## Reconciliation Loop (`src/services/reconciliation-service.ts`) -/

/-- Observable effects of one `reconcileFailed` run. -/
inductive ReconEvent where
  | provisionCall (event : UploadCompletedEvent)
  | alert (contentId : String)
deriving DecidableEq, Repr

/-- The replay event synthesized for one failed record (the object literal in
`reconcileFailed`): tenantId is the hardcoded `"pocketlol"`, durationSeconds
is always `1` (the record stores none), ingestRegion defaults to
`"us-central1"` when the record lacks one. -/
def synthReplayEvent (record : ChannelMetadata) (now : String) : UploadCompletedEvent :=
  { eventId := "reconcile-" ++ record.contentId
    eventType := "media.uploaded"
    version := "2025-01-01"
    occurredAt := now
    data :=
      { contentId := record.contentId
        tenantId := "pocketlol"
        contentType := record.classification
        sourceGcsUri := record.sourceAssetUri
        checksum := record.checksum
        durationSeconds := 1
        ingestRegion := record.ingestRegion.getD "us-central1"
        drm := record.drm
        availabilityWindow := record.availabilityWindow
        geoRestrictions := record.geoRestrictions }
    acknowledgement := some { deadlineSeconds := 60, required := false } }

/-- `reconcileFailed` over the list returned by `listFailed(limit)`.  The
injected provisioner is an oracle: `outcomes i` is what
`provisionFromUpload` does on the `i`-th replay (`Except.error` = it threw).
Each record gets exactly one provision call; a throw is reported to the
alerting sink with that record's contentId and the loop continues. -/
def reconcileFailed (failed : List ChannelMetadata)
    (outcomes : Nat → Except String ChannelMetadata) (now : String) :
    List ReconEvent :=
  go failed 0
where
  /-- The `for … of` loop body, one record at a time. -/
  go : List ChannelMetadata → Nat → List ReconEvent
    | [], _ => []
    | record :: rest, i =>
      ReconEvent.provisionCall (synthReplayEvent record now) ::
        ((match outcomes i with
          | Except.error _ => [ReconEvent.alert record.contentId]
          | Except.ok _ => []) ++ go rest (i + 1))

/-! ## Upload Event Worker (unnamed `part_000`) -/

/-- Decoded JSON as seen by `parseEvent` after `JSON.parse` succeeds: the
TypeScript cast does not validate the shape, so `data` may be absent. -/
structure RawUploadEvent where
  eventType : String
  data : Option EventData
deriving DecidableEq, Repr

/-- Outcome of base64-decoding `message.data` and `JSON.parse` (platform
code, modelled as an oracle): either a throw (malformed base64 / JSON) or a
raw value. -/
inductive JsonOutcome where
  | malformed
  | value (raw : RawUploadEvent)
deriving DecidableEq, Repr

/-- Worker verdict `{action, retryInSeconds?}`. -/
structure WorkerResult where
  action : String
  retryInSeconds : Option Nat
deriving DecidableEq, Repr

/-- Worker configuration: the class fields set by the constructor;
`maxDeliveryAttempts` defaults to 5 (`options.maxDeliveryAttempts ?? 5`). -/
structure WorkerCfg where
  ackDeadlineSeconds : Nat
  manifestTtlSeconds : Nat
  maxDeliveryAttempts : Nat
deriving DecidableEq, Repr

/-- The `UploadEventWorker` constructor's handling of its options. -/
def mkWorkerCfg (ackDeadlineSeconds manifestTtlSeconds : Nat)
    (maxDeliveryAttempts : Option Nat) : WorkerCfg :=
  { ackDeadlineSeconds
    manifestTtlSeconds
    maxDeliveryAttempts := maxDeliveryAttempts.getD 5 }

/-- What the worker observably did: alerting-sink reports (the contentIds
passed to `ingestFailure`) and the returned verdict; `Except.error` on
`result` models `handleMessage` itself throwing (an uncaught exception
escaping to the caller).  The alerting sink's own implementation is not under
`src/`; modelled from the spec (§7: alerting errors are logged and swallowed,
so `ingestFailure` never rejects). -/
structure WorkerOutcome where
  alerts : List String
  result : Except String WorkerResult
deriving DecidableEq, Repr

/-- The verdict built in the catch block. -/
def failVerdict (cfg : WorkerCfg) (shouldAck : Bool) : WorkerResult :=
  if shouldAck then { action := "ack", retryInSeconds := none }
  else { action := "nack", retryInSeconds := some cfg.ackDeadlineSeconds }

/-- `handleMessage`.  `deliveryAttempt` is the optional 1-based attempt from
the message; `json` the oracle for decoding `message.data`; `prov` the
provisioner's behaviour on this event; `notify` the notification publisher's
behaviour.  The try-body faithfully tracks the `event` local: it is assigned
after `parseEvent` returns, so the catch block sees `undefined` on decode
errors and the raw value afterwards.  Accessing `event.data.contentId` for
the entry log throws a TypeError when the decoded JSON lacks `data`; in the
catch block `event?.data.contentId` guards only `event`, so the same shape
throws again there, escaping `handleMessage`. -/
def handleMessage (cfg : WorkerCfg) (deliveryAttempt : Option Nat)
    (json : JsonOutcome) (prov : Except String ChannelMetadata)
    (notify : Except String Unit) : WorkerOutcome :=
  let attempt := deliveryAttempt.getD 1
  let tryResult : Except (String × Option RawUploadEvent) WorkerResult :=
    match json with
    | JsonOutcome.malformed => Except.error ("decode error", none)
    | JsonOutcome.value raw =>
      if raw.eventType ≠ "media.uploaded" then
        Except.error ("Unsupported event type " ++ raw.eventType, none)
      else
        match raw.data with
        | none => Except.error ("TypeError: contentId of undefined", some raw)
        | some _ =>
          match prov with
          | Except.error e => Except.error (e, some raw)
          | Except.ok _ =>
            match notify with
            | Except.error e => Except.error (e, some raw)
            | Except.ok _ => Except.ok { action := "ack", retryInSeconds := none }
  match tryResult with
  | Except.ok verdict => { alerts := [], result := Except.ok verdict }
  | Except.error (err, eventLocal) =>
    let shouldAck := decide (cfg.maxDeliveryAttempts ≤ attempt)
    match eventLocal with
    | none =>
      { alerts := ["unknown"], result := Except.ok (failVerdict cfg shouldAck) }
    | some raw =>
      match raw.data with
      | none =>
        { alerts := [],
          result := Except.error ("TypeError: contentId of undefined in catch: " ++ err) }
      | some d =>
        { alerts := [d.contentId], result := Except.ok (failVerdict cfg shouldAck) }

/-! ## Spec-side definitions (for refinement comparisons)

These follow the words of `spec.md`, to be compared against the behaviour of
the definitions above, and are not translations of source code. -/

/-- The state-machine edges of spec §4.2, read off the diagram: the
status-to-status moves a stored record may make
(`(absent) --insert--> provisioning` concerns insertion, not a
status-to-status move, and is handled separately). -/
def spec42Edge : ChannelStatus → ChannelStatus → Bool
  | ChannelStatus.provisioning, ChannelStatus.ready => true
  | ChannelStatus.provisioning, ChannelStatus.failed => true
  | ChannelStatus.failed, ChannelStatus.provisioning => true
  | ChannelStatus.ready, ChannelStatus.ready => true
  | ChannelStatus.ready, ChannelStatus.provisioning => true
  | ChannelStatus.ready, ChannelStatus.retired => true
  | _, _ => false

/-- The status transitions the code actually performs (`none` = no prior
record): any state reaches `provisioning` on an upload event, `provisioning`
reaches `ready`/`failed` within a call, and admin `retire` moves any existing
record to `retired`. -/
def codeEdge : Option ChannelStatus → ChannelStatus → Bool
  | _, ChannelStatus.provisioning => true
  | some ChannelStatus.provisioning, ChannelStatus.ready => true
  | some ChannelStatus.provisioning, ChannelStatus.failed => true
  | some _, ChannelStatus.retired => true
  | _, _ => false

/-- A sequence of written statuses respects an edge relation, starting from
an optional prior status. -/
def chainOk (edge : Option ChannelStatus → ChannelStatus → Bool) :
    Option ChannelStatus → List ChannelStatus → Bool
  | _, [] => true
  | pre, s :: rest => edge pre s && chainOk edge (some s) rest

/-- Spec wording: a string that *is* a base-10 integer — an optional sign
followed by decimal digits only, and nothing else. -/
def isBase10IntegerStr (s : String) : Bool :=
  let digits := match s.data with
    | '-' :: cs => cs
    | '+' :: cs => cs
    | cs => cs
  ¬ digits.isEmpty ∧ digits.all Char.isDigit

/-- A lowercase hexadecimal digit (`0`–`9`, `a`–`f`). -/
def isLowerHexChar (c : Char) : Bool :=
  (48 ≤ c.toNat ∧ c.toNat ≤ 57) ∨ (97 ≤ c.toNat ∧ c.toNat ≤ 102)

/-! ## Concrete fixtures (used by witnesses and counterexamples) -/

/-- A sample upload payload. -/
def sampleData : EventData :=
  { contentId := "c1"
    tenantId := "t"
    contentType := ChannelClassification.reel
    sourceGcsUri := "gs://b/a"
    checksum := "s1"
    durationSeconds := 10
    ingestRegion := "us"
    drm := none
    availabilityWindow := none
    geoRestrictions := none }

/-- A sample upload event with checksum `s1`. -/
def sampleEvent : UploadCompletedEvent :=
  { eventId := "e1"
    eventType := "media.uploaded"
    version := "2025-01-01"
    occurredAt := "2025-01-01T00:00:00Z"
    data := sampleData
    acknowledgement := none }

/-- The same event re-uploaded with a different checksum `s2`. -/
def sampleEvent2 : UploadCompletedEvent :=
  { sampleEvent with data := { sampleData with checksum := "s2" } }

/-- A sample provisioner configuration. -/
def sampleCfg : ProvisionerCfg :=
  { manifestBucket := "bkt"
    reelPreset := []
    seriesPreset := []
    reelsIngestPool := "rin"
    seriesIngestPool := "sin"
    reelsEgressPool := "reg"
    seriesEgressPool := "seg"
    maxProvisionRetries := 2
    cdnBaseUrl := "https://cdn.example/"
    signingKeyId := "sk"
    dryRun := false
    resolveUrl := fun p b => b ++ p }

/-- A stored record in `ready` state for `c1` with checksum `s1`. -/
def readyRecord : ChannelMetadata :=
  { contentId := "c1"
    channelId := "ch-1"
    classification := ChannelClassification.reel
    manifestPath := buildManifestPath "c1"
    playbackUrl := "https://cdn.example/manifests/c1/master.m3u8"
    originEndpoint := "edge-1"
    cacheKey := buildCacheKey "c1" "s1"
    checksum := "s1"
    status := ChannelStatus.ready
    retries := 0
    sourceAssetUri := "gs://b/a"
    lastProvisionedAt := "2025-01-01T00:00:00Z"
    drm := none
    ingestRegion := some "us"
    availabilityWindow := none
    geoRestrictions := none }

/-- The same stored record, retired by the admin façade. -/
def retiredRecord : ChannelMetadata :=
  { readyRecord with status := ChannelStatus.retired }

/-- A stored record in `failed` state with two prior retries. -/
def failedRecord : ChannelMetadata :=
  { readyRecord with status := ChannelStatus.failed, retries := 2 }

/-- An engine oracle that succeeds on every attempt. -/
def engineOk : Nat → Except String ChannelProvisioningResult :=
  fun _ => Except.ok
    { channelId := "ch-2"
      manifestPath := none
      originEndpoint := "edge-2"
      playbackBaseUrl := none
      profileHash := "ph" }

/-- An engine oracle that fails on every attempt. -/
def engineDown : Nat → Except String ChannelProvisioningResult :=
  fun _ => Except.error "engine unavailable"

/-- A sample clock oracle. -/
def sampleClock : Nat → String :=
  fun n => "2025-02-0" ++ toString (n + 1) ++ "T00:00:00Z"

/-- Projection of a reconciliation trace event to its provision call. -/
def reconCall : ReconEvent → Option UploadCompletedEvent
  | ReconEvent.provisionCall e => some e
  | _ => none

/-! ## Helper lemmas -/

lemma upsertsOf_append (l1 l2 : List TraceEvent) :
    upsertsOf (l1 ++ l2) = upsertsOf l1 ++ upsertsOf l2 :=
  List.filterMap_append l1 l2 upsertEv

lemma upsertsOf_replicate_engine (n : Nat) (r : ChannelProvisioningRequest) :
    upsertsOf (List.replicate n (TraceEvent.engineCall r)) = [] := by
  induction n with
  | zero => rfl
  | succ k ih => simp [List.replicate_succ, upsertsOf, upsertEv, ih]

lemma engineRequestsOf_append (l1 l2 : List TraceEvent) :
    engineRequestsOf (l1 ++ l2) = engineRequestsOf l1 ++ engineRequestsOf l2 :=
  List.filterMap_append l1 l2 engineEv

lemma engineRequestsOf_replicate (n : Nat) (r : ChannelProvisioningRequest) :
    engineRequestsOf (List.replicate n (TraceEvent.engineCall r)) =
      List.replicate n r := by
  induction n with
  | zero => rfl
  | succ k ih => simp [List.replicate_succ, engineRequestsOf, engineEv, ih]

/-- The records upserted by the post-gate body: the `provisioning` pre-record
followed by the terminal `failed` or `ready` record. -/
lemma upsertsOf_provisionCore (cfg : ProvisionerCfg) (event : UploadCompletedEvent)
    (existing : Option ChannelMetadata)
    (engine : Nat → Except String ChannelProvisioningResult) (clock : Nat → String) :
    upsertsOf (provisionCore cfg event existing engine clock).trace =
      mkBaseRecord cfg event existing (clock 0) ::
        [match (runBackoff cfg.maxProvisionRetries engine).1 with
         | Except.error _ =>
             mkFailedRecord (mkBaseRecord cfg event existing (clock 0)) (clock 1)
         | Except.ok response =>
             mkFinalRecord (mkBaseRecord cfg event existing (clock 0)) response (clock 1)] := by
  rcases h : runBackoff cfg.maxProvisionRetries engine with ⟨res, n⟩
  cases res with
  | error e =>
    simp [provisionCore, h, upsertsOf, upsertEv, List.filterMap_append,
      upsertsOf_replicate_engine]
  | ok response =>
    simp [provisionCore, h, upsertsOf, upsertEv, List.filterMap_append,
      upsertsOf_replicate_engine]

/-- The engine requests issued by the post-gate body: some positive number of
copies of the derived request. -/
lemma engineRequestsOf_provisionCore (cfg : ProvisionerCfg)
    (event : UploadCompletedEvent) (existing : Option ChannelMetadata)
    (engine : Nat → Except String ChannelProvisioningResult) (clock : Nat → String) :
    engineRequestsOf (provisionCore cfg event existing engine clock).trace =
      List.replicate (runBackoff cfg.maxProvisionRetries engine).2 (mkRequest cfg event) := by
  rcases h : runBackoff cfg.maxProvisionRetries engine with ⟨res, n⟩
  cases res with
  | error e =>
    simp [provisionCore, h, engineRequestsOf, engineEv, List.filterMap_append,
      engineRequestsOf_replicate]
  | ok response =>
    simp [provisionCore, h, engineRequestsOf, engineEv, List.filterMap_append,
      engineRequestsOf_replicate]

/-- The idempotency short-circuit of `provisionFromUpload`. -/
lemma provision_gate (cfg : ProvisionerCfg) (event : UploadCompletedEvent)
    (ex : ChannelMetadata) (engine : Nat → Except String ChannelProvisioningResult)
    (clock : Nat → String) (h1 : ex.checksum = event.data.checksum)
    (h2 : ex.status = ChannelStatus.ready) :
    provisionFromUpload cfg event (some ex) engine clock =
      { trace := [], result := Except.ok ex } := by
  simp [provisionFromUpload, h1, h2]

/-- When the gate does not fire, `provisionFromUpload` is the post-gate body. -/
lemma provision_nogate (cfg : ProvisionerCfg) (event : UploadCompletedEvent)
    (existing : Option ChannelMetadata)
    (engine : Nat → Except String ChannelProvisioningResult) (clock : Nat → String)
    (h : gateFires existing event = false) :
    provisionFromUpload cfg event existing engine clock =
      provisionCore cfg event existing engine clock := by
  cases existing with
  | none => rfl
  | some ex =>
    simp only [gateFires, decide_eq_false_iff_not] at h
    simp [provisionFromUpload, h]

/-- If every attempt fails, the retry loop returns the last attempt's error
after `fuel + 1` attempts starting at index `i`. -/
lemma runBackoff_go_allfail (engine : Nat → Except String ChannelProvisioningResult)
    (errs : Nat → String) (h : ∀ i, engine i = Except.error (errs i)) :
    ∀ fuel i, runBackoff.go engine fuel i =
      (Except.error (errs (i + fuel)), i + fuel + 1) := by
  intro fuel
  induction fuel with
  | zero => intro i; simp [runBackoff.go, h i]
  | succ k ih =>
    intro i
    have hrec := ih (i + 1)
    have harith : i + 1 + k = i + (k + 1) := by omega
    rw [harith] at hrec
    simp [runBackoff.go, h i, hrec]

/-- If every attempt fails, the retry envelope is exhausted and re-throws the
last error after `retries + 1` attempts. -/
lemma runBackoff_allfail (engine : Nat → Except String ChannelProvisioningResult)
    (errs : Nat → String) (h : ∀ i, engine i = Except.error (errs i))
    (retries : Nat) :
    runBackoff retries engine = (Except.error (errs retries), retries + 1) := by
  have := runBackoff_go_allfail engine errs h retries 0
  simpa [runBackoff] using this

lemma mkBaseRecord_status (cfg : ProvisionerCfg) (event : UploadCompletedEvent)
    (existing : Option ChannelMetadata) (c0 : String) :
    (mkBaseRecord cfg event existing c0).status = ChannelStatus.provisioning := rfl

lemma mkFailedRecord_status (b : ChannelMetadata) (c1 : String) :
    (mkFailedRecord b c1).status = ChannelStatus.failed := rfl

lemma mkFinalRecord_status (b : ChannelMetadata) (r : ChannelProvisioningResult)
    (c1 : String) : (mkFinalRecord b r c1).status = ChannelStatus.ready := rfl

lemma mkFailedRecord_retries (b : ChannelMetadata) (c1 : String) :
    (mkFailedRecord b c1).retries = b.retries + 1 := rfl

lemma mkFinalRecord_retries (b : ChannelMetadata) (r : ChannelProvisioningResult)
    (c1 : String) : (mkFinalRecord b r c1).retries = b.retries := rfl

lemma mkFailedRecord_cacheKey (b : ChannelMetadata) (c1 : String) :
    (mkFailedRecord b c1).cacheKey = b.cacheKey := rfl

lemma mkFinalRecord_cacheKey (b : ChannelMetadata) (r : ChannelProvisioningResult)
    (c1 : String) : (mkFinalRecord b r c1).cacheKey = b.cacheKey := rfl

lemma mkBaseRecord_cacheKey (cfg : ProvisionerCfg) (event : UploadCompletedEvent)
    (existing : Option ChannelMetadata) (c0 : String) :
    (mkBaseRecord cfg event existing c0).cacheKey =
      buildCacheKey event.data.contentId event.data.checksum := rfl

lemma mkBaseRecord_retries_none (cfg : ProvisionerCfg) (event : UploadCompletedEvent)
    (c0 : String) : (mkBaseRecord cfg event none c0).retries = 0 := rfl

lemma mkBaseRecord_retries_some (cfg : ProvisionerCfg) (event : UploadCompletedEvent)
    (ex : ChannelMetadata) (c0 : String) :
    (mkBaseRecord cfg event (some ex) c0).retries = ex.retries + 1 := rfl

/-! ## Claims -/

/-- C1: for every event `E` such that the repository holds a record with the
same contentId whose status is `ready` and whose checksum equals `E`'s
checksum, `provisionFromUpload(E)` returns that existing record unchanged,
performs zero `createChannel` calls and zero repository upserts. -/
theorem C1_ready_idempotent (cfg : ProvisionerCfg) (event : UploadCompletedEvent)
    (ex : ChannelMetadata) (engine : Nat → Except String ChannelProvisioningResult)
    (clock : Nat → String) (h1 : ex.status = ChannelStatus.ready)
    (h2 : ex.checksum = event.data.checksum) :
    upsertsOf (provisionFromUpload cfg event (some ex) engine clock).trace = [] ∧
    engineRequestsOf (provisionFromUpload cfg event (some ex) engine clock).trace = [] ∧
    (provisionFromUpload cfg event (some ex) engine clock).result = Except.ok ex := by
  rw [provision_gate cfg event ex engine clock h2 h1]
  exact ⟨rfl, rfl, rfl⟩

theorem C1_ready_idempotent_witness :
    (readyRecord.status = ChannelStatus.ready ∧
     readyRecord.checksum = sampleEvent.data.checksum) ∧
    (upsertsOf (provisionFromUpload sampleCfg sampleEvent (some readyRecord)
        engineOk sampleClock).trace = [] ∧
     engineRequestsOf (provisionFromUpload sampleCfg sampleEvent (some readyRecord)
        engineOk sampleClock).trace = [] ∧
     (provisionFromUpload sampleCfg sampleEvent (some readyRecord)
        engineOk sampleClock).result = Except.ok readyRecord) :=
  ⟨⟨rfl, rfl⟩,
   C1_ready_idempotent sampleCfg sampleEvent readyRecord engineOk sampleClock rfl rfl⟩

/-- C2 fails on the code: a `retired` record is not terminal — a later upload
event moves it back to `provisioning` (the idempotency gate only
short-circuits on `ready`), and admin `retire` moves a non-`ready` (here
`failed`) record to `retired`; neither move is an edge of spec §4.2. -/
theorem C2_state_closure_counterexample :
    (((upsertsOf (provisionFromUpload sampleCfg sampleEvent2 (some retiredRecord)
          engineOk sampleClock).trace).map ChannelMetadata.status).head? =
        some ChannelStatus.provisioning ∧
     spec42Edge ChannelStatus.retired ChannelStatus.provisioning = false) ∧
    ((upsertsOf (retire (some failedRecord) "2025-03-01T00:00:00Z").1).map
        ChannelMetadata.status = [ChannelStatus.retired] ∧
     spec42Edge ChannelStatus.failed ChannelStatus.retired = false) :=
  ⟨⟨rfl, rfl⟩, ⟨rfl, rfl⟩⟩

/-- C2 as amended: every transition effected by the core follows the code's
state machine `codeEdge` — any pre-state (or absence) moves to `provisioning`
on an upload event unless the ready-same-checksum gate fires, `provisioning`
moves to `ready` or `failed` within the call, and admin `retire` moves any
existing record (regardless of status) to `retired`; in particular a
`retired` record is re-provisioned by a later upload event, so `retired` is
not terminal for the core. -/
theorem C2_state_closure_amended (cfg : ProvisionerCfg)
    (event : UploadCompletedEvent) (existing : Option ChannelMetadata)
    (engine : Nat → Except String ChannelProvisioningResult)
    (clock : Nat → String) (r : ChannelMetadata) (now : String) :
    chainOk codeEdge (existing.map ChannelMetadata.status)
      ((upsertsOf (provisionFromUpload cfg event existing engine clock).trace).map
        ChannelMetadata.status) = true ∧
    (upsertsOf (retire (some r) now).1).map ChannelMetadata.status =
      [ChannelStatus.retired] ∧
    (∀ ex, existing = some ex → ex.status = ChannelStatus.retired →
      ((upsertsOf (provisionFromUpload cfg event existing engine clock).trace).map
        ChannelMetadata.status).head? = some ChannelStatus.provisioning) := by
  refine ⟨?_, rfl, ?_⟩
  · cases existing with
    | none =>
      rw [provision_nogate cfg event none engine clock rfl,
        upsertsOf_provisionCore]
      rcases (runBackoff cfg.maxProvisionRetries engine).1 with e | response <;>
        simp [chainOk, codeEdge, mkBaseRecord_status, mkFailedRecord_status,
          mkFinalRecord_status]
    | some ex =>
      by_cases hg : ex.checksum = event.data.checksum ∧ ex.status = ChannelStatus.ready
      · simp [provisionFromUpload, hg, upsertsOf, chainOk]
      · rw [provision_nogate cfg event (some ex) engine clock
          (by simp [gateFires, hg]), upsertsOf_provisionCore]
        rcases (runBackoff cfg.maxProvisionRetries engine).1 with e | response <;>
          simp [chainOk, codeEdge, mkBaseRecord_status, mkFailedRecord_status,
            mkFinalRecord_status]
  · intro ex hex hret
    subst hex
    have hg : gateFires (some ex) event = false := by
      simp [gateFires, hret]
    rw [provision_nogate cfg event (some ex) engine clock hg,
      upsertsOf_provisionCore]
    simp [mkBaseRecord_status]

theorem C2_state_closure_amended_witness :
    retiredRecord.status = ChannelStatus.retired ∧
    ((upsertsOf (provisionFromUpload sampleCfg sampleEvent2 (some retiredRecord)
        engineOk sampleClock).trace).map ChannelMetadata.status).head? =
      some ChannelStatus.provisioning :=
  ⟨rfl,
   (C2_state_closure_amended sampleCfg sampleEvent2 (some retiredRecord) engineOk
      sampleClock failedRecord "2025-03-01T00:00:00Z").2.2 retiredRecord rfl rfl⟩

/-- C5: when the engine `createChannel` call fails on every attempt of the
retry envelope (and the engine is actually invoked, i.e. the idempotency gate
does not fire), `provisionFromUpload` upserts a record with status `failed`,
retries equal to the pre-record's retries plus one and a fresh
`lastProvisionedAt` (the second clock reading, the pre-record carrying the
first), and re-raises the engine error instead of returning normally. -/
theorem C5_terminal_failure (cfg : ProvisionerCfg) (event : UploadCompletedEvent)
    (existing : Option ChannelMetadata)
    (engine : Nat → Except String ChannelProvisioningResult)
    (clock : Nat → String) (errs : Nat → String)
    (hfail : ∀ i, engine i = Except.error (errs i))
    (hg : gateFires existing event = false) :
    upsertsOf (provisionFromUpload cfg event existing engine clock).trace =
      [mkBaseRecord cfg event existing (clock 0),
       mkFailedRecord (mkBaseRecord cfg event existing (clock 0)) (clock 1)] ∧
    (mkFailedRecord (mkBaseRecord cfg event existing (clock 0)) (clock 1)).status =
      ChannelStatus.failed ∧
    (mkFailedRecord (mkBaseRecord cfg event existing (clock 0)) (clock 1)).retries =
      (mkBaseRecord cfg event existing (clock 0)).retries + 1 ∧
    (mkFailedRecord (mkBaseRecord cfg event existing (clock 0)) (clock 1)).lastProvisionedAt =
      clock 1 ∧
    (mkBaseRecord cfg event existing (clock 0)).lastProvisionedAt = clock 0 ∧
    (provisionFromUpload cfg event existing engine clock).result =
      Except.error (errs cfg.maxProvisionRetries) := by
  rw [provision_nogate cfg event existing engine clock hg]
  have hb := runBackoff_allfail engine errs hfail cfg.maxProvisionRetries
  refine ⟨?_, rfl, rfl, rfl, rfl, ?_⟩
  · rw [upsertsOf_provisionCore, hb]
  · simp [provisionCore, hb]

theorem C5_terminal_failure_witness :
    (gateFires none sampleEvent = false ∧
     engineDown 0 = Except.error "engine unavailable") ∧
    ((provisionFromUpload sampleCfg sampleEvent none engineDown sampleClock).result =
      Except.error "engine unavailable" ∧
     (mkFailedRecord (mkBaseRecord sampleCfg sampleEvent none (sampleClock 0))
        (sampleClock 1)).status = ChannelStatus.failed) :=
  ⟨⟨rfl, rfl⟩,
   ⟨(C5_terminal_failure sampleCfg sampleEvent none engineDown sampleClock
       (fun _ => "engine unavailable") (fun _ => rfl) rfl).2.2.2.2.2,
    (C5_terminal_failure sampleCfg sampleEvent none engineDown sampleClock
       (fun _ => "engine unavailable") (fun _ => rfl) rfl).2.1⟩⟩

/-- C6: within one `provisionFromUpload` call the `retries` field is
non-decreasing across the sequence of upserts, every upserted record's
retries is at least the pre-existing record's retries, a call with no prior
record starts at `retries = 0`, and a call with a prior record writes
`prior.retries + 1` on the `provisioning` pre-record. -/
theorem C6_monotone_retries (cfg : ProvisionerCfg) (event : UploadCompletedEvent)
    (existing : Option ChannelMetadata)
    (engine : Nat → Except String ChannelProvisioningResult)
    (clock : Nat → String) :
    List.Chain' (fun a b => a.retries ≤ b.retries)
      (upsertsOf (provisionFromUpload cfg event existing engine clock).trace) ∧
    (∀ ex, existing = some ex →
      ∀ u ∈ upsertsOf (provisionFromUpload cfg event existing engine clock).trace,
        ex.retries ≤ u.retries) ∧
    (existing = none →
      ∀ u, (upsertsOf (provisionFromUpload cfg event existing engine clock).trace).head? =
          some u → u.retries = 0) ∧
    (∀ ex, existing = some ex →
      ∀ u, (upsertsOf (provisionFromUpload cfg event existing engine clock).trace).head? =
          some u → u.retries = ex.retries + 1) := by
  cases existing with
  | none =>
    rw [provision_nogate cfg event none engine clock rfl, upsertsOf_provisionCore]
    rcases (runBackoff cfg.maxProvisionRetries engine).1 with e | response
    · refine ⟨?_, ?_, ?_, ?_⟩
      · simp [List.chain'_cons, mkFailedRecord_retries]
      · intro ex hex; cases hex
      · intro _ u hu
        simp only [List.head?_cons, Option.some.injEq] at hu
        subst hu
        exact mkBaseRecord_retries_none cfg event (clock 0)
      · intro ex hex; cases hex
    · refine ⟨?_, ?_, ?_, ?_⟩
      · simp [List.chain'_cons, mkFinalRecord_retries]
      · intro ex hex; cases hex
      · intro _ u hu
        simp only [List.head?_cons, Option.some.injEq] at hu
        subst hu
        exact mkBaseRecord_retries_none cfg event (clock 0)
      · intro ex hex; cases hex
  | some ex =>
    by_cases hg : ex.checksum = event.data.checksum ∧ ex.status = ChannelStatus.ready
    · simp [provisionFromUpload, hg, upsertsOf]
    · rw [provision_nogate cfg event (some ex) engine clock (by simp [gateFires, hg]),
        upsertsOf_provisionCore]
      rcases (runBackoff cfg.maxProvisionRetries engine).1 with e | response
      · refine ⟨?_, ?_, ?_, ?_⟩
        · simp [List.chain'_cons, mkFailedRecord_retries]
        · intro ex2 hex2 u hu
          cases hex2
          have hb := mkBaseRecord_retries_some cfg event ex (clock 0)
          simp only [List.mem_cons, List.mem_singleton] at hu
          rcases hu with rfl | rfl | h
          · omega
          · rw [mkFailedRecord_retries, hb]; omega
          · cases h
        · intro h; cases h
        · intro ex2 hex2 u hu
          cases hex2
          simp only [List.head?_cons, Option.some.injEq] at hu
          subst hu
          exact mkBaseRecord_retries_some cfg event ex (clock 0)
      · refine ⟨?_, ?_, ?_, ?_⟩
        · simp [List.chain'_cons, mkFinalRecord_retries]
        · intro ex2 hex2 u hu
          cases hex2
          have hb := mkBaseRecord_retries_some cfg event ex (clock 0)
          simp only [List.mem_cons, List.mem_singleton] at hu
          rcases hu with rfl | rfl | h
          · omega
          · rw [mkFinalRecord_retries, hb]; omega
          · cases h
        · intro h; cases h
        · intro ex2 hex2 u hu
          cases hex2
          simp only [List.head?_cons, Option.some.injEq] at hu
          subst hu
          exact mkBaseRecord_retries_some cfg event ex (clock 0)

theorem C6_monotone_retries_witness :
    (upsertsOf (provisionFromUpload sampleCfg sampleEvent (some failedRecord)
        engineDown sampleClock).trace).head? =
      some (mkBaseRecord sampleCfg sampleEvent (some failedRecord) (sampleClock 0)) ∧
    (mkBaseRecord sampleCfg sampleEvent (some failedRecord) (sampleClock 0)).retries =
      failedRecord.retries + 1 :=
  ⟨rfl,
   (C6_monotone_retries sampleCfg sampleEvent (some failedRecord) engineDown
      sampleClock).2.2.2 failedRecord rfl
      (mkBaseRecord sampleCfg sampleEvent (some failedRecord) (sampleClock 0)) rfl⟩

/-- C10: on the terminal-failure path the `failed` record is the
`provisioning` pre-record updated only in `status`, `retries` and
`lastProvisionedAt`; the pre-record (and hence the failed record) carries the
incoming event's checksum and the cacheKey derived from it, and preserves the
prior record's channelId and originEndpoint (the sentinel `pending` when no
prior record exists) — so a failing re-upload of a ready channel overwrites
the stored checksum while keeping the old channelId. -/
theorem C10_failed_record_frame (cfg : ProvisionerCfg)
    (event : UploadCompletedEvent) (existing : Option ChannelMetadata)
    (engine : Nat → Except String ChannelProvisioningResult)
    (clock : Nat → String) (errs : Nat → String)
    (hfail : ∀ i, engine i = Except.error (errs i))
    (hg : gateFires existing event = false) :
    upsertsOf (provisionFromUpload cfg event existing engine clock).trace =
      [mkBaseRecord cfg event existing (clock 0),
       { mkBaseRecord cfg event existing (clock 0) with
           status := ChannelStatus.failed
           retries := (mkBaseRecord cfg event existing (clock 0)).retries + 1
           lastProvisionedAt := clock 1 }] ∧
    (mkBaseRecord cfg event existing (clock 0)).checksum = event.data.checksum ∧
    (mkBaseRecord cfg event existing (clock 0)).cacheKey =
      buildCacheKey event.data.contentId event.data.checksum ∧
    (mkBaseRecord cfg event existing (clock 0)).channelId =
      (existing.map ChannelMetadata.channelId).getD "pending" ∧
    (mkBaseRecord cfg event existing (clock 0)).originEndpoint =
      (existing.map ChannelMetadata.originEndpoint).getD "pending" := by
  rw [provision_nogate cfg event existing engine clock hg]
  have hb := runBackoff_allfail engine errs hfail cfg.maxProvisionRetries
  refine ⟨?_, rfl, rfl, rfl, rfl⟩
  rw [upsertsOf_provisionCore, hb]
  rfl

theorem C10_failed_record_frame_witness :
    (gateFires (some readyRecord) sampleEvent2 = false ∧
     engineDown 0 = Except.error "engine unavailable") ∧
    upsertsOf (provisionFromUpload sampleCfg sampleEvent2 (some readyRecord)
        engineDown sampleClock).trace =
      [mkBaseRecord sampleCfg sampleEvent2 (some readyRecord) (sampleClock 0),
       { mkBaseRecord sampleCfg sampleEvent2 (some readyRecord) (sampleClock 0) with
           status := ChannelStatus.failed
           retries := (mkBaseRecord sampleCfg sampleEvent2 (some readyRecord)
             (sampleClock 0)).retries + 1
           lastProvisionedAt := sampleClock 1 }] ∧
    (mkBaseRecord sampleCfg sampleEvent2 (some readyRecord)
      (sampleClock 0)).channelId = "ch-1" ∧
    (mkBaseRecord sampleCfg sampleEvent2 (some readyRecord)
      (sampleClock 0)).checksum = "s2" :=
  ⟨⟨rfl, rfl⟩,
   (C10_failed_record_frame sampleCfg sampleEvent2 (some readyRecord) engineDown
      sampleClock (fun _ => "engine unavailable") (fun _ => rfl) rfl).1,
   rfl, rfl⟩

lemma tupleBytes_length (h : Nat × Nat × Nat × Nat × Nat) :
    (tupleBytes h).length = 20 := by
  simp [tupleBytes, be32]

lemma length_flatMap_byteHex (bs : List Nat) :
    (bs.flatMap byteHex).length = 2 * bs.length := by
  induction bs with
  | nil => rfl
  | cons b t ih => simp [byteHex, ih]; omega

lemma hexDigit_lowerHex : ∀ n < 16, isLowerHexChar (hexDigit n) = true := by decide

lemma byteHex_lowerHex (b : Nat) : ∀ c ∈ byteHex b, isLowerHexChar c = true := by
  intro c hc
  simp only [byteHex, List.mem_cons, List.not_mem_nil, or_false] at hc
  rcases hc with rfl | rfl
  · exact hexDigit_lowerHex _ (Nat.mod_lt _ (by norm_num))
  · exact hexDigit_lowerHex _ (Nat.mod_lt _ (by norm_num))

/-- The hex digest has 40 characters. -/
lemma sha1Hex_length (s : String) : (sha1Hex s).length = 40 := by
  show ((sha1Bytes (strBytes s)).flatMap byteHex).length = 40
  rw [length_flatMap_byteHex, sha1Bytes, tupleBytes_length]

/-- Every character of the hex digest is a lowercase hexadecimal digit. -/
lemma sha1Hex_lowerHex (s : String) :
    ∀ c ∈ (sha1Hex s).data, isLowerHexChar c = true := by
  intro c hc
  have hc2 : c ∈ (sha1Bytes (strBytes s)).flatMap byteHex := hc
  rcases List.mem_flatMap.mp hc2 with ⟨b, _, hcb⟩
  exact byteHex_lowerHex b c hcb

/-- C7: the cacheKey stamped into every record upserted and every
provisioning request issued by `provisionFromUpload` equals the lowercase
hexadecimal SHA-1 digest of `contentId ++ ":" ++ checksum`; `buildCacheKey`
is that pure function of the two inputs, and its output is 40 lowercase hex
characters. -/
theorem C7_cache_key (cfg : ProvisionerCfg) (event : UploadCompletedEvent)
    (existing : Option ChannelMetadata)
    (engine : Nat → Except String ChannelProvisioningResult)
    (clock : Nat → String) (cid ck : String) :
    (∀ u ∈ upsertsOf (provisionFromUpload cfg event existing engine clock).trace,
      u.cacheKey = sha1Hex (event.data.contentId ++ ":" ++ event.data.checksum)) ∧
    (∀ r ∈ engineRequestsOf (provisionFromUpload cfg event existing engine clock).trace,
      r.cacheKey = sha1Hex (event.data.contentId ++ ":" ++ event.data.checksum)) ∧
    buildCacheKey cid ck = sha1Hex (cid ++ ":" ++ ck) ∧
    (buildCacheKey cid ck).length = 40 ∧
    (∀ c ∈ (buildCacheKey cid ck).data, isLowerHexChar c = true) := by
  refine ⟨?_, ?_, rfl, sha1Hex_length _, sha1Hex_lowerHex _⟩
  · intro u hu
    cases existing with
    | none =>
      rw [provision_nogate cfg event none engine clock rfl,
        upsertsOf_provisionCore] at hu
      rcases hrb : (runBackoff cfg.maxProvisionRetries engine).1 with e | response <;>
        rw [hrb] at hu <;>
        simp only [List.mem_cons, List.mem_singleton, List.not_mem_nil, or_false] at hu <;>
        rcases hu with rfl | rfl <;> rfl
    | some ex =>
      by_cases hg : ex.checksum = event.data.checksum ∧ ex.status = ChannelStatus.ready
      · simp [provisionFromUpload, hg, upsertsOf] at hu
      · rw [provision_nogate cfg event (some ex) engine clock (by simp [gateFires, hg]),
          upsertsOf_provisionCore] at hu
        rcases hrb : (runBackoff cfg.maxProvisionRetries engine).1 with e | response <;>
          rw [hrb] at hu <;>
          simp only [List.mem_cons, List.mem_singleton, List.not_mem_nil, or_false] at hu <;>
          rcases hu with rfl | rfl <;> rfl
  · intro r hr
    cases existing with
    | none =>
      rw [provision_nogate cfg event none engine clock rfl,
        engineRequestsOf_provisionCore] at hr
      rcases List.eq_of_mem_replicate hr with rfl
      rfl
    | some ex =>
      by_cases hg : ex.checksum = event.data.checksum ∧ ex.status = ChannelStatus.ready
      · simp [provisionFromUpload, hg, engineRequestsOf] at hr
      · rw [provision_nogate cfg event (some ex) engine clock (by simp [gateFires, hg]),
          engineRequestsOf_provisionCore] at hr
        rcases List.eq_of_mem_replicate hr with rfl
        rfl

set_option maxRecDepth 40000 in
theorem C7_cache_key_witness :
    (mkBaseRecord sampleCfg sampleEvent none (sampleClock 0) ∈
      upsertsOf (provisionFromUpload sampleCfg sampleEvent none engineDown
        sampleClock).trace) ∧
    (mkBaseRecord sampleCfg sampleEvent none (sampleClock 0)).cacheKey =
      sha1Hex (sampleEvent.data.contentId ++ ":" ++ sampleEvent.data.checksum) :=
  ⟨List.mem_cons_self _ _,
   (C7_cache_key sampleCfg sampleEvent none engineDown sampleClock "c1" "s1").1
     (mkBaseRecord sampleCfg sampleEvent none (sampleClock 0))
     (List.mem_cons_self _ _)⟩

/-- C3: whenever processing fails with a decode error (malformed payload or
unsupported eventType), a provisioner error, or a notification error,
`handleMessage` — with attempt = `deliveryAttempt` when present and 1 when
absent — returns `{action: ack}` when attempt ≥ `maxDeliveryAttempts`
(defaulting to 5 when the option is absent) and otherwise
`{action: nack, retryInSeconds: ackDeadlineSeconds}`. -/
theorem C3_poison_verdict (ackD ttl : Nat) (maxAtt : Option Nat)
    (deliveryAttempt : Option Nat) (json : JsonOutcome)
    (prov : Except String ChannelMetadata) (notify : Except String Unit)
    (hfail :
      json = JsonOutcome.malformed ∨
      (∃ raw, json = JsonOutcome.value raw ∧ raw.eventType ≠ "media.uploaded") ∨
      (∃ raw d e, json = JsonOutcome.value raw ∧ raw.eventType = "media.uploaded" ∧
        raw.data = some d ∧ prov = Except.error e) ∨
      (∃ raw d m e, json = JsonOutcome.value raw ∧ raw.eventType = "media.uploaded" ∧
        raw.data = some d ∧ prov = Except.ok m ∧ notify = Except.error e)) :
    (handleMessage (mkWorkerCfg ackD ttl maxAtt) deliveryAttempt json prov notify).result =
      Except.ok
        (if maxAtt.getD 5 ≤ deliveryAttempt.getD 1 then
          { action := "ack", retryInSeconds := none }
        else
          { action := "nack", retryInSeconds := some ackD }) := by
  have hverdict : ∀ b : Bool, b = decide (maxAtt.getD 5 ≤ deliveryAttempt.getD 1) →
      failVerdict (mkWorkerCfg ackD ttl maxAtt) b =
        (if maxAtt.getD 5 ≤ deliveryAttempt.getD 1 then
          ({ action := "ack", retryInSeconds := none } : WorkerResult)
        else { action := "nack", retryInSeconds := some ackD }) := by
    intro b hb
    subst hb
    by_cases hc : maxAtt.getD 5 ≤ deliveryAttempt.getD 1 <;>
      simp [failVerdict, hc, mkWorkerCfg]
  rcases hfail with rfl | ⟨raw, rfl, hne⟩ | ⟨raw, d, e, rfl, het, hd, rfl⟩ |
      ⟨raw, d, m, e, rfl, het, hd, rfl, rfl⟩
  · simp [handleMessage, mkWorkerCfg]
    exact hverdict _ rfl
  · simp [handleMessage, mkWorkerCfg, hne]
    exact hverdict _ rfl
  · simp [handleMessage, mkWorkerCfg, het, hd]
    exact hverdict _ rfl
  · simp [handleMessage, mkWorkerCfg, het, hd]
    exact hverdict _ rfl

theorem C3_poison_verdict_witness :
    (JsonOutcome.malformed = JsonOutcome.malformed ∨
      (∃ raw, JsonOutcome.malformed = JsonOutcome.value raw ∧
        raw.eventType ≠ "media.uploaded") ∨
      (∃ raw d e, JsonOutcome.malformed = JsonOutcome.value raw ∧
        raw.eventType = "media.uploaded" ∧ raw.data = some d ∧
        (Except.ok readyRecord : Except String ChannelMetadata) = Except.error e) ∨
      (∃ raw d m e, JsonOutcome.malformed = JsonOutcome.value raw ∧
        raw.eventType = "media.uploaded" ∧ raw.data = some d ∧
        (Except.ok readyRecord : Except String ChannelMetadata) = Except.ok m ∧
        (Except.ok () : Except String Unit) = Except.error e)) ∧
    (handleMessage (mkWorkerCfg 30 60 none) (some 2) JsonOutcome.malformed
      (Except.ok readyRecord) (Except.ok ())).result =
      Except.ok { action := "nack", retryInSeconds := some 30 } :=
  ⟨Or.inl rfl,
   C3_poison_verdict 30 60 none (some 2) JsonOutcome.malformed
     (Except.ok readyRecord) (Except.ok ()) (Or.inl rfl)⟩

/-- C4 is a code bug: the spec's propagation policy says every error inside
`handleMessage` funnels through the single catch and yields an ack/nack
verdict, and the code's `event?.data.contentId ?? "unknown"` shows the same
intent — but the optional chain guards only `event`, not `.data`, so a
message whose decoded JSON is `{"eventType": "media.uploaded"}` with no
`data` field makes the catch block itself throw a TypeError: `handleMessage`
propagates an exception, returns no verdict, and reports nothing to the
alerting sink. -/
theorem C4_catch_block_throws :
    (handleMessage (mkWorkerCfg 30 60 none) (some 1)
        (JsonOutcome.value { eventType := "media.uploaded", data := none })
        (Except.ok readyRecord) (Except.ok ())).result =
      Except.error
        "TypeError: contentId of undefined in catch: TypeError: contentId of undefined" ∧
    (handleMessage (mkWorkerCfg 30 60 none) (some 1)
        (JsonOutcome.value { eventType := "media.uploaded", data := none })
        (Except.ok readyRecord) (Except.ok ())).alerts = [] :=
  ⟨rfl, rfl⟩

/-- C8 fails on the code: the bitrate token `800x` is not a base-10 integer,
yet parsing succeeds — `Number.parseInt("800x", 10)` parses the leading
integer and ignores the trailing characters, and only a `NaN` result (no
leading digit) is rejected. -/
theorem C8_preset_parsing_counterexample :
    parsePreset "low|640x360|800x" =
      Except.ok [{ name := "low", resolution := "640x360", bitrateKbps := 800 }] ∧
    isBase10IntegerStr "800x" = false := by
  constructor <;> rfl

/-- C8 as amended: the empty preset string parses to an empty ladder without
error; parsing splits on commas, trims entries and skips those empty after
trimming; an entry fails — with an error message naming the offending
entry — exactly when one of its three trimmed tokens is empty or its bitrate
token has no leading base-10 integer (JS `parseInt` semantics: a token with
a valid leading integer and trailing garbage is accepted). -/
theorem C8_preset_parsing_amended :
    parsePreset "" = Except.ok [] ∧
    (∀ s, parsePreset s =
      (((jsSplit ',' s).map jsTrim).filter
        (fun e => ¬ (e = ""))).mapM parsePresetEntry) ∧
    (∀ e, (∃ msg, parsePresetEntry e = Except.error msg) ↔
      (presetTok e 0 = "" ∨ presetTok e 1 = "" ∨ presetTok e 2 = "" ∨
       parseIntBase10 (presetTok e 2) = none)) ∧
    (∀ e msg, parsePresetEntry e = Except.error msg →
      msg = "Invalid ABR preset entry: " ++ e ∨
      msg = "Invalid bitrate in ABR preset entry: " ++ e) := by
  refine ⟨rfl, fun s => rfl, ?_, ?_⟩
  · intro e
    constructor
    · rintro ⟨msg, hmsg⟩
      by_cases hc : presetTok e 0 = "" ∨ presetTok e 1 = "" ∨ presetTok e 2 = ""
      · tauto
      · rcases hparse : parseIntBase10 (presetTok e 2) with _ | v
        · exact Or.inr (Or.inr (Or.inr rfl))
        · rw [parsePresetEntry, if_neg hc, hparse] at hmsg
          cases hmsg
    · intro h
      by_cases hc : presetTok e 0 = "" ∨ presetTok e 1 = "" ∨ presetTok e 2 = ""
      · exact ⟨"Invalid ABR preset entry: " ++ e, by rw [parsePresetEntry, if_pos hc]⟩
      · have hparse : parseIntBase10 (presetTok e 2) = none := by tauto
        exact ⟨"Invalid bitrate in ABR preset entry: " ++ e,
          by rw [parsePresetEntry, if_neg hc, hparse]⟩
  · intro e msg hmsg
    by_cases hc : presetTok e 0 = "" ∨ presetTok e 1 = "" ∨ presetTok e 2 = ""
    · rw [parsePresetEntry, if_pos hc] at hmsg
      exact Or.inl (Except.error.inj hmsg).symm
    · rcases hparse : parseIntBase10 (presetTok e 2) with _ | v
      · rw [parsePresetEntry, if_neg hc, hparse] at hmsg
        exact Or.inr (Except.error.inj hmsg).symm
      · rw [parsePresetEntry, if_neg hc, hparse] at hmsg
        cases hmsg

theorem C8_preset_parsing_amended_witness :
    parsePresetEntry "a||3" = Except.error "Invalid ABR preset entry: a||3" ∧
    ("Invalid ABR preset entry: a||3" = "Invalid ABR preset entry: " ++ "a||3" ∨
     "Invalid ABR preset entry: a||3" =
       "Invalid bitrate in ABR preset entry: " ++ "a||3") :=
  ⟨by rfl,
   C8_preset_parsing_amended.2.2.2 "a||3" "Invalid ABR preset entry: a||3" (by rfl)⟩

/-- The reconciliation loop issues exactly one provision call per record, in
order, regardless of outcomes. -/
lemma reconcile_go_calls (outcomes : Nat → Except String ChannelMetadata)
    (now : String) :
    ∀ (l : List ChannelMetadata) (i : Nat),
      (reconcileFailed.go outcomes now l i).filterMap reconCall =
        l.map (fun r => synthReplayEvent r now) := by
  intro l
  induction l with
  | nil => intro i; rfl
  | cons record rest ih =>
    intro i
    rcases h : outcomes i with e | m <;>
      simp [reconcileFailed.go, h, reconCall, List.filterMap_append, ih (i + 1)]

/-- A failing outcome for the `i`-th record makes the loop report that
record's contentId to the alerting sink. -/
lemma reconcile_go_alert (outcomes : Nat → Except String ChannelMetadata)
    (now : String) :
    ∀ (l : List ChannelMetadata) (j i : Nat) (r : ChannelMetadata) (e : String),
      l.get? i = some r → outcomes (j + i) = Except.error e →
      ReconEvent.alert r.contentId ∈ reconcileFailed.go outcomes now l j := by
  intro l
  induction l with
  | nil => intro j i r e hget; cases hget
  | cons record rest ih =>
    intro j i r e hget hout
    cases i with
    | zero =>
      rw [List.get?_cons_zero] at hget
      cases hget
      rw [Nat.add_zero] at hout
      simp [reconcileFailed.go, hout]
    | succ k =>
      rw [List.get?_cons_succ] at hget
      have harith : j + 1 + k = j + (k + 1) := by omega
      have hmem := ih (j + 1) k r e hget (by rw [harith]; exact hout)
      simp only [reconcileFailed.go, List.mem_cons, List.mem_append]
      rcases hout2 : outcomes j with e2 | m2 <;> simp [hout2, hmem]

/-- C9: `reconcileFailed` invokes `provisionFromUpload` exactly once per
listed record, in order, with a synthesized event whose eventId is
`"reconcile-" ++ contentId`, whose eventType is `media.uploaded` and whose
payload carries the stored checksum, classification and sourceAssetUri, with
durationSeconds 1 and ingestRegion defaulting to the home region when the
record has none; an error while replaying a record is reported to the
alerting sink with that record's contentId and does not prevent the other
records from being processed (every record still gets its provision call). -/
theorem C9_reconcile_loop (records : List ChannelMetadata)
    (outcomes : Nat → Except String ChannelMetadata) (now : String) :
    (reconcileFailed records outcomes now).filterMap reconCall =
      records.map (fun r => synthReplayEvent r now) ∧
    (∀ i r e, records.get? i = some r → outcomes i = Except.error e →
      ReconEvent.alert r.contentId ∈ reconcileFailed records outcomes now) ∧
    (∀ r n2, (synthReplayEvent r n2).eventId = "reconcile-" ++ r.contentId ∧
      (synthReplayEvent r n2).eventType = "media.uploaded" ∧
      (synthReplayEvent r n2).data.checksum = r.checksum ∧
      (synthReplayEvent r n2).data.contentType = r.classification ∧
      (synthReplayEvent r n2).data.sourceGcsUri = r.sourceAssetUri ∧
      (synthReplayEvent r n2).data.durationSeconds = 1 ∧
      (synthReplayEvent r n2).data.ingestRegion = r.ingestRegion.getD "us-central1") := by
  refine ⟨reconcile_go_calls outcomes now records 0, ?_, ?_⟩
  · intro i r e hget hout
    exact reconcile_go_alert outcomes now records 0 i r e hget
      (by rw [Nat.zero_add]; exact hout)
  · intro r n2
    exact ⟨rfl, rfl, rfl, rfl, rfl, rfl, rfl⟩

theorem C9_reconcile_loop_witness :
    ([failedRecord, readyRecord].get? 0 = some failedRecord ∧
     (fun _ => (Except.error "engine down" : Except String ChannelMetadata)) 0 =
       Except.error "engine down") ∧
    ReconEvent.alert failedRecord.contentId ∈
      reconcileFailed [failedRecord, readyRecord]
        (fun _ => Except.error "engine down") "2025-04-01T00:00:00Z" :=
  ⟨⟨rfl, rfl⟩,
   (C9_reconcile_loop [failedRecord, readyRecord]
      (fun _ => Except.error "engine down") "2025-04-01T00:00:00Z").2.1
     0 failedRecord "engine down" rfl rfl⟩
